import Mathlib

/-!
Shallow embedding of `app.py` (a WhatsApp quotation bot).  The embedded parts
are: field extraction and normalization (`parse_command_with_ai`,
lines 105-178), filename derivation in the renderer
(`create_quotation_from_template`, lines 181-203), email delivery
(`send_email_with_attachment`, lines 206-269) and the webhook controller
(`webhook`, lines 284-374).  Python machine floats are modelled as exact
rationals; the Gemini model call, the JSON decoding of its reply, the
template engine and the SMTP transport are external services whose outcomes
are oracle inputs to the embedded functions.
-/

namespace App

/-- The ten-key candidate field mapping produced by an extractor.  `app.py`
runs `data.setdefault(k, "")` for every key (lines 140-141), so an absent
field is represented by the empty string. -/
structure CandidateFields where
  q_no : String
  date : String
  company_name : String
  customer_name : String
  product : String
  quantity : String
  rate : String
  units : String
  hsn : String
  email : String
deriving Repr, DecidableEq

/-- Whitespace removed at both ends of a character list. -/
def stripList (l : List Char) : List Char :=
  ((l.dropWhile Char.isWhitespace).reverse.dropWhile Char.isWhitespace).reverse

/-- Python `str.strip()` (whitespace removed at both ends), as used by the
required-field presence check on line 146. -/
def pyStrip (s : String) : String := String.mk (stripList s.data)

/-- The required-field presence check of lines 144-148: each of
`customer_name`, `product`, `quantity`, `rate`, `email` must be non-blank
after stripping. -/
def requiredOk (d : CandidateFields) : Bool :=
  (pyStrip d.customer_name != "") && (pyStrip d.product != "") &&
  (pyStrip d.quantity != "") && (pyStrip d.rate != "") && (pyStrip d.email != "")

/-- Numeric value of a decimal digit character. -/
def charToDigit (c : Char) : Nat := c.toNat - 48

/-- Value of a digit string, most significant digit first. -/
def natOfDigits (l : List Char) : Nat := l.foldl (fun a c => 10 * a + charToDigit c) 0

/-- Line 152: `int(re.sub(r"[^\d]", "", str(data["quantity"])))` — keep only
the decimal digits of the quantity string and parse them as an integer;
`int` of the empty string raises, which the code turns into `None`. -/
def parseQty (s : String) : Option Nat :=
  let ds := s.data.filter Char.isDigit
  if ds.isEmpty then none else some (natOfDigits ds)

/-- Characters kept by `re.sub(r"[^\d.]", "", -)`: digits and the dot. -/
def keepNumChar (c : Char) : Bool := c.isDigit || c == '.'

/-- Python `float` applied to a string of digits and dots: it parses iff the
string has at most one dot and at least one digit; the value is the integer
part plus the fractional part. -/
def parseNumList (l : List Char) : Option ℚ :=
  if 1 < l.count '.' then none
  else if !(l.any Char.isDigit) then none
  else
    some ((natOfDigits (l.takeWhile (fun c => c != '.')) : ℚ) +
      (natOfDigits ((l.dropWhile (fun c => c != '.')).drop 1) : ℚ) /
        (10 : ℚ) ^ ((l.dropWhile (fun c => c != '.')).drop 1).length)

/-- Line 158: `float(re.sub(r"[^\d.]", "", str(data["rate"])))` — strip every
character except digits and the decimal point, then parse as a float. -/
def parseRateStr (s : String) : Option ℚ :=
  parseNumList (s.data.filter keepNumChar)

/-- Round to the nearest integer, ties to even — the rounding Python `format`
applies when printing a float with `.2f`. -/
def halfEven (x : ℚ) : ℤ :=
  if x - ⌊x⌋ < 1/2 then ⌊x⌋
  else if 1/2 < x - ⌊x⌋ then ⌊x⌋ + 1
  else if ⌊x⌋ % 2 = 0 then ⌊x⌋ else ⌊x⌋ + 1

/-- The number of cents a rate is rounded to by two-decimal formatting. -/
def centsOf (r : ℚ) : ℤ := halfEven (100 * r)

/-- Fuelled digit expansion of a natural number, most significant first. -/
def natDigitsAux : Nat → Nat → List Char
  | 0, _ => []
  | fuel + 1, n =>
    if n < 10 then [Nat.digitChar n]
    else natDigitsAux fuel (n / 10) ++ [Nat.digitChar (n % 10)]

/-- Decimal digits of a natural number, most significant first. -/
def natToDigitsList (n : Nat) : List Char := natDigitsAux (n + 1) n

/-- Insert a comma after every three characters of a reversed digit list —
the thousands grouping of Python `{:,}` formatting, built from the right. -/
def commaGroupRev : List Char → List Char
  | a :: b :: c :: d :: rest => a :: b :: c :: ',' :: commaGroupRev (d :: rest)
  | l => l

/-- Thousands grouping of a digit list, most significant digit first. -/
def commaGroup (l : List Char) : List Char := (commaGroupRev l.reverse).reverse

/-- Python `f"₹{x:,.2f}"` for a non-negative value (lines 166-167): rupee
sign, comma-grouped integer part, dot, two fraction digits, after rounding
half-even to cents. -/
def formatCurrency (r : ℚ) : String :=
  String.mk ('₹' :: commaGroup (natToDigitsList ((centsOf r).toNat / 100)) ++
    '.' :: [Nat.digitChar ((centsOf r).toNat % 100 / 10), Nat.digitChar ((centsOf r).toNat % 10)])

/-- Python `f"{x:.2f}"` (line 165): two-decimal formatting with no currency
sign and no grouping. -/
def formatPlain2 (r : ℚ) : String :=
  String.mk (natToDigitsList ((centsOf r).toNat / 100) ++
    '.' :: [Nat.digitChar ((centsOf r).toNat % 100 / 10), Nat.digitChar ((centsOf r).toNat % 10)])

/-- The validated record returned by `parse_command_with_ai` (the dict built
on lines 163-174).  The dict stores `quantity` as the decimal string of
`qty_num` and `rate` as `f"{rate_num:.2f}"`; the embedding carries the
numeric values (`quantity`, `rate`, `total`) together with the formatted
display strings the dict holds. -/
structure Quotation where
  q_no : String
  date : String
  company_name : String
  customer_name : String
  product : String
  quantity : Nat
  rate : ℚ
  units : String
  hsn : String
  email : String
  rate_str : String
  rate_formatted : String
  total_str : String
  total : ℚ
deriving Repr, DecidableEq

/-- The record assembled on lines 163-171 once both numbers have parsed:
total computed as `qty_num * rate_num`, display strings formatted, `date` and
`units` defaulted when blank. -/
def mkQuotation (today_str : String) (data : CandidateFields) (qty : Nat) (rate : ℚ) :
    Quotation :=
  { q_no := data.q_no,
    date := if data.date == "" then today_str else data.date,
    company_name := data.company_name,
    customer_name := data.customer_name,
    product := data.product,
    quantity := qty,
    rate := rate,
    units := if data.units == "" then "Nos" else data.units,
    hsn := data.hsn,
    email := data.email,
    rate_str := formatPlain2 rate,
    rate_formatted := formatCurrency rate,
    total_str := formatCurrency ((qty : ℚ) * rate),
    total := (qty : ℚ) * rate }

/-- Lines 143-174 of `parse_command_with_ai`: required-field presence check,
numeric coercion of `quantity` and `rate`, computation of the total,
defaulting of `date` and `units`, and currency formatting.  Returns `none`
(the Python `return None`) on any validation failure. -/
def normalize (today_str : String) (data : CandidateFields) : Option Quotation :=
  if requiredOk data then
    match parseQty data.quantity, parseRateStr data.rate with
    | some qty, some rate => some (mkQuotation today_str data qty rate)
    | _, _ => none
  else none

/-- The whole of `parse_command_with_ai` (lines 105-178).  The Gemini call
and the JSON decoding of its answer are external, so their combined outcome
is an oracle input: `none` models an unavailable model, a failed or timed-out
call, or an unparseable response; `some d` models the decoded ten-key mapping
after the `setdefault` loop. -/
def parse_command_with_ai (today_str : String) (aiOutcome : Option CandidateFields) :
    Option Quotation :=
  match aiOutcome with
  | none => none
  | some d => normalize today_str d

/-- Oracle outcomes of the external interactions of
`send_email_with_attachment`: credentials configured, attachment readable,
and whether each of the two SMTP submissions would succeed. -/
structure SmtpEnv where
  credsPresent : Bool
  attachOk : Bool
  tls587Ok : Bool
  ssl465Ok : Bool
deriving Repr, DecidableEq

/-- The two transport submissions the delivery code can make. -/
inductive SmtpAttempt where
  | tls587
  | ssl465
deriving Repr, DecidableEq

/-- Result of `send_email_with_attachment`: the returned boolean, the
transport submissions attempted in order, and whether `os.remove` was
attempted on the attachment before returning. -/
structure SendResult where
  ok : Bool
  attempts : List SmtpAttempt
  fileRemoved : Bool
deriving Repr, DecidableEq

/-- Lines 206-269 of `send_email_with_attachment`.  The `finally` block that
removes the attachment belongs to the second (SSL:465) `try` statement only,
so it runs exactly when that statement is entered: not on the early
`return False` paths (no path, missing credentials, attach error) and not
when the STARTTLS:587 attempt already returned `True`. -/
def send_email_with_attachment (env : SmtpEnv) (attachment_path : String) : SendResult :=
  if attachment_path == "" then { ok := false, attempts := [], fileRemoved := false }
  else if !env.credsPresent then { ok := false, attempts := [], fileRemoved := false }
  else if !env.attachOk then { ok := false, attempts := [], fileRemoved := false }
  else if env.tls587Ok then { ok := true, attempts := [SmtpAttempt.tls587], fileRemoved := false }
  else if env.ssl465Ok then
    { ok := true, attempts := [SmtpAttempt.tls587, SmtpAttempt.ssl465], fileRemoved := true }
  else { ok := false, attempts := [SmtpAttempt.tls587, SmtpAttempt.ssl465], fileRemoved := true }

/-- Characters kept by line 193: Python `c.isalnum()` (modelled on the ASCII
range) or one of space, underscore, hyphen. -/
def allowedChar (c : Char) : Bool := c.isAlphanum || c == ' ' || c == '_' || c == '-'

/-- Line 193: `"".join(c for c in name if c.isalnum() or c in " _-").rstrip()
or "Customer"` — keep the allowed characters, remove trailing whitespace,
and default to "Customer" when the result is empty. -/
def safe_name (name : String) : String :=
  let kept := name.data.filter allowedChar
  let trimmed := (kept.reverse.dropWhile Char.isWhitespace).reverse
  if trimmed.isEmpty then "Customer" else String.mk trimmed

/-- Line 194: `f"Quotation_{safe_name}_{datetime.date.today()}.docx"`, with
the current date supplied as a string parameter. -/
def quotationFilename (today name : String) : String :=
  "Quotation_" ++ safe_name name ++ "_" ++ today ++ ".docx"

/-- The filename sanitization as the claim words it, with "trimming" read in
the usual way: whitespace removed at both ends. -/
def safe_name_claimed (name : String) : String :=
  let t := stripList (name.data.filter allowedChar)
  if t.isEmpty then "Customer" else String.mk t

/-- The filename derivation as the claim words it. -/
def quotationFilename_claimed (today name : String) : String :=
  "Quotation_" ++ safe_name_claimed name ++ "_" ++ today ++ ".docx"

/-- Removal of trailing whitespace written as a right fold that discards
whitespace while no kept character has been seen yet — an independent
formulation of `rstrip` used to state the amended filename claim. -/
def rstripAmended (l : List Char) : List Char :=
  l.foldr (fun c acc => if acc.isEmpty && c.isWhitespace then [] else c :: acc) []

/-- The amended sanitization: restrict to the allowed characters, remove
trailing whitespace only, default to "Customer" when empty. -/
def safe_name_amended (name : String) : String :=
  let t := rstripAmended (name.data.filter allowedChar)
  if t.isEmpty then "Customer" else String.mk t

/-- The amended filename derivation. -/
def quotationFilename_amended (today name : String) : String :=
  "Quotation_" ++ safe_name_amended name ++ "_" ++ today ++ ".docx"

/-- The renderer `create_quotation_from_template` (lines 181-203), with the
template engine as an oracle: when rendering succeeds the document is saved
under `/tmp` with the derived filename and its path is returned. -/
def create_quotation_from_template (renderOk : Bool) (today : String) (ctx : Quotation) :
    Option String :=
  if renderOk then some ("/tmp/" ++ quotationFilename today ctx.customer_name) else none

/-- An apostrophe, kept out of string literals. -/
def apos : String := String.singleton (Char.ofNat 39)

/-- The fixed guidance message of lines 326-328, sent when extraction or
validation fails. -/
def guidanceMessage : String :=
  "Sorry, I couldn" ++ apos ++ "t read all details. Please send like:\nName: Raju\nProduct: 5 inch SS 316L sheets\nQuantity: 5\nRate: 25000\nUnits: Pcs\nEmail: raju@example.com"

/-- The message of line 335, sent when document rendering fails. -/
def docFailMessage : String :=
  "Sorry, I couldn" ++ apos ++ "t create the quotation DOCX."

/-- The success reply of lines 354-357. -/
def successMessage (ctx : Quotation) : String :=
  "✅ Success! Your quotation for " ++ ctx.product ++ " was created and emailed to " ++
    ctx.email ++ "."

/-- The delivery-failure reply of lines 359-363. -/
def emailFailMessage (ctx : Quotation) : String :=
  "⚠️ Created the quotation but couldn" ++ apos ++ "t send email to " ++ ctx.email ++
    ". Please check the email or try again."

/-- Externally visible steps of one webhook run.  `extractRule` exists so the
spec claim about a rule-based fallback extraction can be stated; the code of
this variant never performs such a step. -/
inductive Action where
  | extractAI
  | extractRule
  | render
  | sendEmail (recipient : String)
  | reply (dest : String) (text : String)
deriving Repr, DecidableEq

/-- Oracle outcomes of all external calls one webhook run may make. -/
structure Env where
  aiOutcome : Option CandidateFields
  renderOk : Bool
  smtp : SmtpEnv
deriving Repr, DecidableEq

/-- The fields of an inbound WhatsApp message the handler inspects. -/
structure WebhookMsg where
  msgType : String
  fromNumber : String
deriving Repr, DecidableEq

/-- Lines 318-365: the branch of the POST handler for a text message. -/
def handleTextMessage (today : String) (env : Env) (fromNumber : String) : List Action × Nat :=
  match parse_command_with_ai today env.aiOutcome with
  | none => ([Action.extractAI, Action.reply fromNumber guidanceMessage], 200)
  | some ctx =>
    match create_quotation_from_template env.renderOk today ctx with
    | none => ([Action.extractAI, Action.render, Action.reply fromNumber docFailMessage], 200)
    | some path =>
      if (send_email_with_attachment env.smtp path).ok then
        ([Action.extractAI, Action.render, Action.sendEmail ctx.email,
          Action.reply fromNumber (successMessage ctx)], 200)
      else
        ([Action.extractAI, Action.render, Action.sendEmail ctx.email,
          Action.reply fromNumber (emailFailMessage ctx)], 200)

/-- Lines 312-365: handling of an inbound message in the POST branch of
`webhook`.  A message whose type is not "text" is ignored: no actions are
performed and status 200 is returned (lines 314-316). -/
def webhookPost (today : String) (env : Env) (m : WebhookMsg) : List Action × Nat :=
  if m.msgType == "text" then handleTextMessage today env m.fromNumber
  else ([], 200)

/-- A well-formed candidate mapping used to instantiate proved theorems,
matching the scenario input of the spec. -/
def cfGood : CandidateFields :=
  { q_no := "", date := "", company_name := "", customer_name := "Raju",
    product := "3 inch pipe", quantity := "500", rate := "600", units := "Pcs",
    hsn := "", email := "raju@example.com" }

/-- The quotation `normalize` produces from `cfGood`. -/
def qGood : Quotation :=
  { q_no := "", date := "June 01, 2025", company_name := "", customer_name := "Raju",
    product := "3 inch pipe", quantity := 500, rate := 600, units := "Pcs", hsn := "",
    email := "raju@example.com", rate_str := "600.00", rate_formatted := "₹600.00",
    total_str := "₹300,000.00", total := 300000 }

theorem requiredOk_iff (cf : CandidateFields) :
    requiredOk cf = true ↔
      pyStrip cf.customer_name ≠ "" ∧ pyStrip cf.product ≠ "" ∧
      pyStrip cf.quantity ≠ "" ∧ pyStrip cf.rate ≠ "" ∧ pyStrip cf.email ≠ "" := by
  simp [requiredOk, Bool.and_eq_true, bne_iff_ne, and_assoc]

theorem pyStrip_ne_empty {s : String} (h : pyStrip s ≠ "") : s ≠ "" := by
  intro hs
  exact h (by rw [hs]; rfl)

theorem normalize_eq_some_iff (t : String) (cf : CandidateFields) (q : Quotation) :
    normalize t cf = some q ↔
      requiredOk cf = true ∧ ∃ n r, parseQty cf.quantity = some n ∧
        parseRateStr cf.rate = some r ∧ q = mkQuotation t cf n r := by
  constructor
  · intro h
    unfold normalize at h
    split at h
    · cases hn : parseQty cf.quantity with
      | none => rw [hn] at h; cases hr : parseRateStr cf.rate <;> rw [hr] at h <;> simp at h
      | some n =>
        cases hr : parseRateStr cf.rate with
        | none => rw [hn, hr] at h; simp at h
        | some r =>
          rw [hn, hr] at h
          simp only [Option.some.injEq] at h
          exact ⟨by assumption, n, r, rfl, rfl, h.symm⟩
    · simp at h
  · rintro ⟨hreq, n, r, hn, hr, rfl⟩
    unfold normalize
    rw [if_pos hreq, hn, hr]

theorem parseNumList_nonneg {l : List Char} {r : ℚ} (h : parseNumList l = some r) : 0 ≤ r := by
  unfold parseNumList at h
  split at h
  · simp at h
  · split at h
    · simp at h
    · simp only [Option.some.injEq] at h
      subst h
      positivity

theorem parseRateStr_nonneg {s : String} {r : ℚ} (h : parseRateStr s = some r) : 0 ≤ r :=
  parseNumList_nonneg h

/-- C2 counterexample input: every field valid except that the email has no
at sign, hence is not a syntactically valid address. -/
def cfNoAt : CandidateFields := { cfGood with email := "no-at-sign" }

unseal Rat.mul Rat.add Rat.sub Rat.inv in
/-- C2 (counterexample): `normalize` accepts a CandidateFields whose email is
not a syntactically valid address (it contains no at sign) and constructs a
Quotation, so an invalid but non-blank email does not yield a
ValidationFailure. -/
theorem c2_counterexample :
    (normalize "June 01, 2025" cfNoAt).isSome = true ∧
      cfNoAt.email.data.all (fun c => c != '@') = true := by
  decide

/-- C2 (amended): a CandidateFields whose email is absent or blank (blank
after stripping whitespace; an absent field is the empty string) yields a
rejection, never a Quotation.  Email syntax beyond non-blankness is not
checked. -/
theorem c2_blank_email_rejected (t : String) (cf : CandidateFields)
    (h : pyStrip cf.email = "") : normalize t cf = none := by
  cases hn : normalize t cf with
  | none => rfl
  | some q =>
    exfalso
    obtain ⟨hreq, -⟩ := (normalize_eq_some_iff t cf q).mp hn
    exact ((requiredOk_iff cf).mp hreq).2.2.2.2 h

/-- C2 amended claim instantiated: a concrete mapping whose email is a blank
string is rejected by `normalize`. -/
theorem c2_blank_email_rejected_witness :
    normalize "June 01, 2025" { cfGood with email := "  " } = none :=
  c2_blank_email_rejected "June 01, 2025" { cfGood with email := "  " } (by decide)

/-- C3: under the required-field presence check, `normalize` fails exactly
when the digits-only integer parse of `quantity` or the digits-and-dot float
parse of `rate` fails, and on success the constructed Quotation carries
exactly the parsed numbers.  `parseQty` keeps only decimal digits and parses
them as an integer; `parseRateStr` strips every character except digits and
the decimal point and parses the rest as a float. -/
theorem c3_numeric_coercion (t : String) (cf : CandidateFields)
    (hreq : requiredOk cf = true) :
    (normalize t cf = none ↔ parseQty cf.quantity = none ∨ parseRateStr cf.rate = none) ∧
    ∀ q, normalize t cf = some q →
      parseQty cf.quantity = some q.quantity ∧ parseRateStr cf.rate = some q.rate := by
  constructor
  · unfold normalize
    rw [if_pos hreq]
    cases hn : parseQty cf.quantity <;> cases hr : parseRateStr cf.rate <;> simp
  · intro q h
    obtain ⟨-, n, r, hn, hr, rfl⟩ := (normalize_eq_some_iff t cf q).mp h
    exact ⟨hn, hr⟩

unseal Rat.mul Rat.add Rat.sub Rat.inv in
/-- C3 instantiated at a concrete well-formed mapping. -/
theorem c3_numeric_coercion_witness :
    (normalize "June 01, 2025" cfGood = none ↔
      parseQty cfGood.quantity = none ∨ parseRateStr cfGood.rate = none) ∧
    (parseQty cfGood.quantity = some qGood.quantity ∧
      parseRateStr cfGood.rate = some qGood.rate) := by
  have h := c3_numeric_coercion "June 01, 2025" cfGood (by decide)
  exact ⟨h.1, h.2 qGood (by decide)⟩

/-- C4 counterexample input: every field valid but the quantity string is
"0", which is non-blank and parses to the integer 0. -/
def cfZero : CandidateFields := { cfGood with quantity := "0" }

/-- The quotation `normalize` produces from `cfZero`: quantity 0. -/
def qZero : Quotation :=
  { qGood with quantity := 0, total := 0, total_str := "₹0.00" }

unseal Rat.mul Rat.add Rat.sub Rat.inv in
/-- C4 (counterexample): a CandidateFields whose quantity is the string "0"
passes every check and yields a Quotation whose quantity is 0, which is not a
positive integer — refuting the claim that every constructed Quotation has a
positive quantity. -/
theorem c4_counterexample :
    normalize "June 01, 2025" cfZero = some qZero ∧ ¬ 0 < qZero.quantity := by
  decide

/-- C4 (amended): invariant of every constructed Quotation — `customer_name`
and `product` are non-empty strings, the quantity is a non-negative integer
(it has type `Nat`, the value 0 included), the rate is a non-negative number,
the email is non-blank, and the source mapping passed the required-field
check, so partially valid data never yields a Quotation. -/
theorem c4_quotation_invariant (t : String) (cf : CandidateFields) (q : Quotation)
    (h : normalize t cf = some q) :
    q.customer_name ≠ "" ∧ q.product ≠ "" ∧ 0 ≤ q.rate ∧ pyStrip q.email ≠ "" ∧
      requiredOk cf = true := by
  obtain ⟨hreq, n, r, hn, hr, rfl⟩ := (normalize_eq_some_iff t cf q).mp h
  obtain ⟨h1, h2, -, -, h5⟩ := (requiredOk_iff cf).mp hreq
  exact ⟨pyStrip_ne_empty h1, pyStrip_ne_empty h2, parseRateStr_nonneg hr, h5, hreq⟩

unseal Rat.mul Rat.add Rat.sub Rat.inv in
/-- C4 amended claim instantiated at a concrete mapping and quotation. -/
theorem c4_quotation_invariant_witness :
    qGood.customer_name ≠ "" ∧ qGood.product ≠ "" ∧ 0 ≤ qGood.rate ∧
      pyStrip qGood.email ≠ "" ∧ requiredOk cfGood = true :=
  c4_quotation_invariant "June 01, 2025" cfGood qGood (by decide)

/-- C5: every Quotation constructed by `normalize` from a mapping whose
quantity and rate parse carries a total equal to the product of the parsed
integer quantity and the parsed rate — exact arithmetic, floats being
modelled as rationals. -/
theorem c5_total_product (t : String) (cf : CandidateFields) (q : Quotation)
    (h : normalize t cf = some q) :
    q.total = (q.quantity : ℚ) * q.rate ∧
      parseQty cf.quantity = some q.quantity ∧ parseRateStr cf.rate = some q.rate := by
  obtain ⟨-, n, r, hn, hr, rfl⟩ := (normalize_eq_some_iff t cf q).mp h
  exact ⟨rfl, hn, hr⟩

unseal Rat.mul Rat.add Rat.sub Rat.inv in
/-- C5 instantiated: the quotation built from the spec scenario input has
total 500 * 600 = 300000. -/
theorem c5_total_product_witness :
    qGood.total = (qGood.quantity : ℚ) * qGood.rate ∧
      parseQty cfGood.quantity = some qGood.quantity ∧
      parseRateStr cfGood.rate = some qGood.rate :=
  c5_total_product "June 01, 2025" cfGood qGood (by decide)

/-- Oracle for a webhook run whose AI extraction fails while every later
external call would succeed. -/
def envAIFail : Env := { aiOutcome := none, renderOk := true,
                         smtp := { credsPresent := true, attachOk := true,
                                   tls587Ok := true, ssl465Ok := true } }

/-- A concrete inbound text message. -/
def msgText : WebhookMsg := { msgType := "text", fromNumber := "15550001111" }

/-- C1 (counterexample): on an extraction failure the handler sends the fixed
guidance message without ever attempting a rule-based extraction — no
rule-based extractor exists in this code, refuting the claimed AI-to-rule
fallback. -/
theorem c1_counterexample :
    Action.extractRule ∉ (webhookPost "June 01, 2025" envAIFail msgText).1 ∧
      Action.reply "15550001111" guidanceMessage ∈
        (webhookPost "June 01, 2025" envAIFail msgText).1 := by
  decide

/-- C1 (amended): whenever AI-based extraction ends in a failure (model
unavailable, call error, unparseable response, or a mapping failing
validation), the handler immediately rejects the request and sends the fixed
guidance message; no rule-based extraction is attempted. -/
theorem c1_no_fallback_guidance (t : String) (env : Env) (m : WebhookMsg)
    (htype : m.msgType = "text")
    (hai : parse_command_with_ai t env.aiOutcome = none) :
    webhookPost t env m =
      ([Action.extractAI, Action.reply m.fromNumber guidanceMessage], 200) := by
  unfold webhookPost handleTextMessage
  rw [htype, hai]
  rfl

/-- C1 amended claim instantiated: a failed AI extraction on a concrete text
message produces exactly the guidance reply. -/
theorem c1_no_fallback_guidance_witness :
    webhookPost "June 01, 2025" envAIFail msgText =
      ([Action.extractAI, Action.reply "15550001111" guidanceMessage], 200) :=
  c1_no_fallback_guidance "June 01, 2025" envAIFail msgText (by decide) (by decide)

/-- C7 (code bug evidence): with credentials present, a readable attachment
and a successful STARTTLS:587 submission, the delivery function returns
success without `os.remove` ever running — the cleanup `finally` belongs to
the SSL:465 `try` only, which is never entered on this path. -/
theorem c7_file_not_deleted_on_tls_success :
    send_email_with_attachment
        { credsPresent := true, attachOk := true, tls587Ok := true, ssl465Ok := true }
        "/tmp/Quotation_Raju_2026-10-12.docx" =
      { ok := true, attempts := [SmtpAttempt.tls587], fileRemoved := false } := by
  decide

/-- Oracle for a delivery whose STARTTLS:587 submission fails and whose
SSL:465 submission succeeds. -/
def envTlsFail : SmtpEnv :=
  { credsPresent := true, attachOk := true, tls587Ok := false, ssl465Ok := true }

/-- C8 (counterexample): when the STARTTLS:587 submission fails, the delivery
function itself submits a second time over SSL:465 and reports overall
success — two transport submissions within the stage, not exactly one, and no
Failed outcome surfaced. -/
theorem c8_counterexample :
    (send_email_with_attachment envTlsFail "/tmp/x.docx").attempts =
        [SmtpAttempt.tls587, SmtpAttempt.ssl465] ∧
      (send_email_with_attachment envTlsFail "/tmp/x.docx").attempts.length ≠ 1 ∧
      (send_email_with_attachment envTlsFail "/tmp/x.docx").ok = true := by
  decide

/-- C8 (amended): with a non-empty path, credentials and a readable
attachment, the delivery function tries STARTTLS:587 first and stops there on
success; on its failure it falls back to exactly one more submission over
SSL:465, and a single failed outcome is surfaced only when both fail. -/
theorem c8_two_transport_fallback (env : SmtpEnv) (path : String)
    (hp : path ≠ "") (hc : env.credsPresent = true) (ha : env.attachOk = true) :
    (env.tls587Ok = true →
      send_email_with_attachment env path =
        { ok := true, attempts := [SmtpAttempt.tls587], fileRemoved := false }) ∧
    (env.tls587Ok = false →
      (send_email_with_attachment env path).attempts =
          [SmtpAttempt.tls587, SmtpAttempt.ssl465] ∧
        (send_email_with_attachment env path).ok = env.ssl465Ok) := by
  have hp' : (path == "") = false := by simp [hp]
  unfold send_email_with_attachment
  rw [hp', hc, ha]
  cases ht : env.tls587Ok <;> cases hs : env.ssl465Ok <;> simp [hs]

/-- C8 amended claim instantiated at the failing-STARTTLS oracle. -/
theorem c8_two_transport_fallback_witness :
    (envTlsFail.tls587Ok = true →
      send_email_with_attachment envTlsFail "/tmp/x.docx" =
        { ok := true, attempts := [SmtpAttempt.tls587], fileRemoved := false }) ∧
    (envTlsFail.tls587Ok = false →
      (send_email_with_attachment envTlsFail "/tmp/x.docx").attempts =
          [SmtpAttempt.tls587, SmtpAttempt.ssl465] ∧
        (send_email_with_attachment envTlsFail "/tmp/x.docx").ok = envTlsFail.ssl465Ok) :=
  c8_two_transport_fallback envTlsFail "/tmp/x.docx" (by decide) (by decide) (by decide)

/-- C9 (counterexample): for the customer name " Raju" (leading space) the
code keeps the leading space — `rstrip` removes trailing whitespace only —
while the claimed derivation, which trims at both ends, removes it; the two
filenames differ, refuting the claim as worded. -/
theorem c9_counterexample :
    quotationFilename "2026-10-12" " Raju" = "Quotation_ Raju_2026-10-12.docx" ∧
      quotationFilename_claimed "2026-10-12" " Raju" = "Quotation_Raju_2026-10-12.docx" ∧
      quotationFilename "2026-10-12" " Raju" ≠ quotationFilename_claimed "2026-10-12" " Raju" := by
  decide

/-- C10: an inbound message of any type other than "text" (image, audio, …)
is ignored entirely — no extraction, no reply, no other action — and the
handler answers HTTP 200. -/
theorem c10_ignore_non_text (t : String) (env : Env) (m : WebhookMsg)
    (h : m.msgType ≠ "text") : webhookPost t env m = ([], 200) := by
  unfold webhookPost
  have h' : (m.msgType == "text") = false := by simp [h]
  rw [h']
  rfl

/-- C10 instantiated: a concrete image message is ignored with status 200. -/
theorem c10_ignore_non_text_witness :
    webhookPost "June 01, 2025" envAIFail { msgType := "image", fromNumber := "15550001111" } =
      ([], 200) :=
  c10_ignore_non_text "June 01, 2025" envAIFail
    { msgType := "image", fromNumber := "15550001111" } (by decide)

theorem rstripAmended_cons (c : Char) (l : List Char) :
    rstripAmended (c :: l) =
      if (rstripAmended l).isEmpty && c.isWhitespace then [] else c :: rstripAmended l := rfl

theorem rstrip_rev_eq (l : List Char) :
    (l.reverse.dropWhile Char.isWhitespace).reverse = rstripAmended l := by
  induction l with
  | nil => rfl
  | cons c tl ih =>
    rw [rstripAmended_cons, ← ih, List.reverse_cons, List.dropWhile_append]
    by_cases he : (tl.reverse.dropWhile Char.isWhitespace).isEmpty
    · rw [if_pos he]
      have he2 : (tl.reverse.dropWhile Char.isWhitespace) = [] := List.isEmpty_iff.mp he
      rw [he2]
      cases hpc : c.isWhitespace
      · simp [List.dropWhile, hpc]
      · simp [List.dropWhile, hpc]
    · rw [if_neg he]
      have hne : tl.reverse.dropWhile Char.isWhitespace ≠ [] :=
        fun hh => he (by simp [hh])
      have he2 : (tl.reverse.dropWhile Char.isWhitespace).reverse.isEmpty = false := by
        rw [Bool.eq_false_iff]
        intro hx
        exact hne (by simpa using List.isEmpty_iff.mp hx)
      rw [List.reverse_append]
      simp [he2]

theorem safe_name_eq_amended (name : String) : safe_name name = safe_name_amended name := by
  simp only [safe_name, safe_name_amended, rstrip_rev_eq]

/-- C9 (amended): the rendered filename is built by restricting the customer
name to alphanumeric characters plus space, underscore and hyphen, trimming
trailing whitespace only (leading characters, spaces included, are kept),
substituting the placeholder "Customer" when the result is empty, and
appending the supplied current date before the extension. -/
theorem c9_filename_amended (today name : String) :
    quotationFilename today name = quotationFilename_amended today name := by
  unfold quotationFilename quotationFilename_amended
  rw [safe_name_eq_amended]


theorem charToDigit_digitChar : ∀ k, k < 10 → charToDigit (Nat.digitChar k) = k := by decide

theorem isDigit_digitChar : ∀ k, k < 10 → (Nat.digitChar k).isDigit = true := by decide

theorem natOfDigits_append (l : List Char) (c : Char) :
    natOfDigits (l ++ [c]) = 10 * natOfDigits l + charToDigit c := by
  simp [natOfDigits, List.foldl_append]

theorem natDigitsAux_spec : ∀ (fuel n : Nat), n < fuel →
    natOfDigits (natDigitsAux fuel n) = n ∧ natDigitsAux fuel n ≠ [] ∧
      ∀ c ∈ natDigitsAux fuel n, c.isDigit = true := by
  intro fuel
  induction fuel with
  | zero => intro n h; omega
  | succ f ih =>
    intro n h
    unfold natDigitsAux
    by_cases h10 : n < 10
    · rw [if_pos h10]
      refine ⟨?_, by simp, ?_⟩
      · simp [natOfDigits, charToDigit_digitChar n h10]
      · intro c hc
        simp only [List.mem_singleton] at hc
        subst hc
        exact isDigit_digitChar n h10
    · rw [if_neg h10]
      have hf : n / 10 < f := by omega
      obtain ⟨ih1, ih2, ih3⟩ := ih (n / 10) hf
      refine ⟨?_, by simp, ?_⟩
      · rw [natOfDigits_append, ih1, charToDigit_digitChar (n % 10) (by omega)]
        omega
      · intro c hc
        rw [List.mem_append] at hc
        rcases hc with hc | hc
        · exact ih3 c hc
        · simp only [List.mem_singleton] at hc
          subst hc
          exact isDigit_digitChar (n % 10) (by omega)

theorem natToDigitsList_spec (n : Nat) :
    natOfDigits (natToDigitsList n) = n ∧ natToDigitsList n ≠ [] ∧
      ∀ c ∈ natToDigitsList n, c.isDigit = true :=
  natDigitsAux_spec (n + 1) n (by omega)

theorem keepNumChar_comma : keepNumChar ',' = false := by decide

theorem keep_of_isDigit {c : Char} (h : c.isDigit = true) : keepNumChar c = true := by
  simp [keepNumChar, h]

theorem filter_commaGroupRev :
    ∀ (l : List Char), (commaGroupRev l).filter keepNumChar = l.filter keepNumChar
  | [] => rfl
  | [a] => rfl
  | [a, b] => rfl
  | [a, b, c] => rfl
  | a :: b :: c :: d :: rest => by
    show (a :: b :: c :: ',' :: commaGroupRev (d :: rest)).filter keepNumChar = _
    simp [List.filter_cons, keepNumChar_comma, filter_commaGroupRev (d :: rest)]

theorem filter_commaGroup (l : List Char) :
    (commaGroup l).filter keepNumChar = l.filter keepNumChar := by
  unfold commaGroup
  rw [List.filter_reverse, filter_commaGroupRev, List.filter_reverse, List.reverse_reverse]


theorem formatCurrency_data (r : ℚ) :
    (formatCurrency r).data =
      '₹' :: commaGroup (natToDigitsList ((centsOf r).toNat / 100)) ++
        '.' :: [Nat.digitChar ((centsOf r).toNat % 100 / 10),
                Nat.digitChar ((centsOf r).toNat % 10)] := rfl

theorem filter_formatCurrency (r : ℚ) :
    (formatCurrency r).data.filter keepNumChar =
      natToDigitsList ((centsOf r).toNat / 100) ++
        '.' :: [Nat.digitChar ((centsOf r).toNat % 100 / 10),
                Nat.digitChar ((centsOf r).toNat % 10)] := by
  obtain ⟨-, -, hdig⟩ := natToDigitsList_spec ((centsOf r).toNat / 100)
  have hD : (natToDigitsList ((centsOf r).toNat / 100)).filter keepNumChar =
      natToDigitsList ((centsOf r).toNat / 100) :=
    List.filter_eq_self.mpr (fun c hc => keep_of_isDigit (hdig c hc))
  have h1 : keepNumChar (Nat.digitChar ((centsOf r).toNat % 100 / 10)) = true :=
    keep_of_isDigit (isDigit_digitChar _ (by omega))
  have h2 : keepNumChar (Nat.digitChar ((centsOf r).toNat % 10)) = true :=
    keep_of_isDigit (isDigit_digitChar _ (by omega))
  have hrupee : keepNumChar '₹' = false := by decide
  have hdot : keepNumChar '.' = true := by decide
  rw [formatCurrency_data]
  simp only [List.filter_cons, List.filter_append, hrupee, hdot, h1, h2,
    filter_commaGroup, hD]
  simp

theorem parseNumList_digits (ds : List Char) (e1 e2 : Char)
    (hds : ∀ c ∈ ds, c.isDigit = true) (hne : ds ≠ [])
    (h1 : e1.isDigit = true) (h2 : e2.isDigit = true) :
    parseNumList (ds ++ '.' :: [e1, e2]) =
      some ((natOfDigits ds : ℚ) +
        ((10 * charToDigit e1 + charToDigit e2 : ℕ) : ℚ) / 100) := by
  have hdotds : ('.' : Char) ∉ ds := by
    intro hmem
    exact absurd (hds _ hmem) (by decide)
  have hne1 : e1 ≠ '.' := by
    intro hh
    rw [hh] at h1
    exact absurd h1 (by decide)
  have hne2 : e2 ≠ '.' := by
    intro hh
    rw [hh] at h2
    exact absurd h2 (by decide)
  have hcount : (ds ++ '.' :: [e1, e2]).count '.' = 1 := by
    rw [List.count_append, List.count_eq_zero.mpr hdotds]
    simp [List.count_cons, hne1, hne2]
  have hbne : ∀ c ∈ ds, (c != '.') = true := by
    intro c hc
    exact bne_iff_ne.mpr (fun hh => hdotds (hh ▸ hc))
  obtain ⟨hd, tl, hcons⟩ := List.exists_cons_of_ne_nil hne
  have hany : (ds ++ '.' :: [e1, e2]).any Char.isDigit = true := by
    rw [List.any_eq_true]
    exact ⟨hd, by rw [hcons]; simp, hds hd (by rw [hcons]; simp)⟩
  unfold parseNumList
  rw [hcount]
  rw [if_neg (by omega)]
  rw [hany]
  rw [if_neg (by simp)]
  rw [List.takeWhile_append_of_pos hbne, List.dropWhile_append_of_pos hbne]
  rw [List.takeWhile_cons_of_neg (by simp), List.dropWhile_cons_of_neg (by simp)]
  simp only [List.append_nil, List.drop_succ_cons, List.drop_zero, List.length_cons,
    List.length_nil]
  norm_num
  rw [show natOfDigits [e1, e2] = 10 * charToDigit e1 + charToDigit e2 by
    simp [natOfDigits]]
  push_cast
  ring

theorem centsOf_nonneg {r : ℚ} (h : 0 ≤ r) : 0 ≤ centsOf r := by
  unfold centsOf halfEven
  have h0 : (0 : ℤ) ≤ ⌊(100 : ℚ) * r⌋ := Int.floor_nonneg.mpr (by positivity)
  split_ifs <;> omega

theorem abs_halfEven_sub (x : ℚ) : |(halfEven x : ℚ) - x| ≤ 1 / 2 := by
  have h1 : (⌊x⌋ : ℚ) ≤ x := Int.floor_le x
  have h2 : x < ⌊x⌋ + 1 := Int.lt_floor_add_one x
  unfold halfEven
  split_ifs with ha hb hc <;> rw [abs_le] <;> constructor <;> push_cast <;> linarith


theorem c6_rate_roundtrip (r : ℚ) (h : 0 ≤ r) :
    parseRateStr (formatCurrency r) = some ((centsOf r : ℚ) / 100) ∧
      |(centsOf r : ℚ) / 100 - r| ≤ 1 / 200 := by
  constructor
  · unfold parseRateStr
    rw [filter_formatCurrency]
    obtain ⟨hval, hne, hdig⟩ := natToDigitsList_spec ((centsOf r).toNat / 100)
    rw [parseNumList_digits _ _ _ hdig hne (isDigit_digitChar _ (by omega))
      (isDigit_digitChar _ (by omega))]
    have hfr : 10 * charToDigit (Nat.digitChar ((centsOf r).toNat % 100 / 10)) +
        charToDigit (Nat.digitChar ((centsOf r).toNat % 10)) = (centsOf r).toNat % 100 := by
      rw [charToDigit_digitChar _ (by omega), charToDigit_digitChar _ (by omega)]
      omega
    rw [hval, hfr]
    have hc : ((centsOf r).toNat : ℚ) = ((centsOf r : ℤ) : ℚ) := by
      exact_mod_cast congrArg Int.cast (Int.toNat_of_nonneg (centsOf_nonneg h))
    have hsplit : (centsOf r).toNat =
        100 * ((centsOf r).toNat / 100) + (centsOf r).toNat % 100 := by omega
    have hsplitq : ((centsOf r).toNat : ℚ) =
        100 * (((centsOf r).toNat / 100 : ℕ) : ℚ) + (((centsOf r).toNat % 100 : ℕ) : ℚ) := by
      exact_mod_cast congrArg (fun n : ℕ => (n : ℚ)) hsplit
    congr 1
    rw [← hc, hsplitq]
    ring
  · have hm := abs_halfEven_sub (100 * r)
    have heq : (centsOf r : ℚ) / 100 - r = ((halfEven (100 * r) : ℚ) - 100 * r) / 100 := by
      unfold centsOf
      ring
    rw [heq, abs_div]
    have h100 : |(100 : ℚ)| = 100 := by norm_num
    rw [h100]
    have hnn := abs_nonneg ((halfEven (100 * r) : ℚ) - 100 * r)
    linarith

unseal Rat.mul Rat.add Rat.sub Rat.inv in
theorem c6_rate_roundtrip_witness :
    parseRateStr (formatCurrency (1234567 / 100 : ℚ)) =
        some ((centsOf (1234567 / 100 : ℚ) : ℚ) / 100) ∧
      |(centsOf (1234567 / 100 : ℚ) : ℚ) / 100 - 1234567 / 100| ≤ 1 / 200 :=
  c6_rate_roundtrip (1234567 / 100) (by norm_num)

end App
